import Mathlib

/-
Verification of the PHORAGER input-detection and parameter-validation layer.

The definitions below are a shallow embedding of the Python validation
modules (lib/utils/install_validation.py, lib/utils/annotation_validation.py,
lib/utils/prophage_validation.py, lib/utils/bacterial_validation.py).

Modelling conventions:
- Filesystem state is an explicit tree (FSNode); a classifier receives the
  node found at its input path (none when the path does not exist).
  Filesystem probing in the source (exists, is_file, is_dir, stat, glob,
  listdir, child-path construction) becomes pure lookups on that tree.
- stat().st_size of a directory is modelled as 4096 (nonzero, as on the
  target platforms); files carry their exact size.
- Python floats in the validated parameters are modelled as rationals, and
  the declared one-decimal database sizes as exact tenths of a GB; every
  value the source manipulates is exactly representable, so no rounding
  behaviour is lost.
- Error-message strings are embedded verbatim, except that ASCII quote
  characters occurring inside the messages are omitted, and the one message
  that joins a Python set (the allowed-extension set) uses the fixed order
  .fa, .fasta, .fna.
- Each early-return site of a source function corresponds to one
  constructor of that function s result type, so the result identifies
  which failure fired as well as the message built there.
- os.path.abspath / expanduser normalisation is not modelled: the claims
  under study depend only on the final path component and on the tree.
-/

/-! ## Character and string helpers (ASCII semantics of the Python builtins used) -/

def isPySpace (c : Char) : Bool :=
  c = ' ' || c = '\t' || c = '\n' || c = '\x0b' || c = '\x0c' || c = '\r'

def trimChars (l : List Char) : List Char :=
  ((l.dropWhile isPySpace).reverse.dropWhile isPySpace).reverse

/-- Python str.strip() (ASCII whitespace). -/
def pyStrip (s : String) : String := String.mk (trimChars s.data)

/-- Python str.split on a comma, keeping empty pieces. -/
def splitCommaAux : List Char → List Char → List (List Char)
  | [], acc => [acc.reverse]
  | c :: cs, acc =>
    if c = ',' then acc.reverse :: splitCommaAux cs [] else splitCommaAux cs (c :: acc)

def splitComma (s : String) : List String :=
  (splitCommaAux s.data []).map String.mk

def strToLower (s : String) : String := String.mk (s.data.map Char.toLower)

/-- Python str.endswith. -/
def strEndsWith (s suf : String) : Bool := List.isSuffixOf suf.data s.data

/-- Final component of a POSIX path (pathlib PurePath.name). -/
def lastComponent (p : String) : String :=
  String.mk ((p.data.reverse.takeWhile (fun c => c ≠ '/')).reverse)

/-- Extension of a path, pathlib PurePath.suffix: the part of the final
component from its last dot, empty when the dot is absent, leading or
trailing. -/
def pathSuffix (p : String) : String :=
  let name := (lastComponent p).data
  let rev := name.reverse
  let k := rev.takeWhile (fun c => c ≠ '.')
  if k.length < rev.length ∧ k ≠ [] ∧ k.length + 2 ≤ rev.length then
    String.mk ('.' :: k.reverse)
  else ""

/-- Python str.join with separator ", ". -/
def joinCommaSpace : List String → String
  | [] => ""
  | [x] => x
  | x :: xs => x ++ ", " ++ joinCommaSpace xs

/-- Python str.join with separator ",". -/
def joinComma : List String → String
  | [] => ""
  | [x] => x
  | x :: xs => x ++ "," ++ joinComma xs

/-- Substring containment, used to state properties of error messages. -/
def containsStr (s pat : String) : Prop :=
  ∃ pre post : String, s = pre ++ pat ++ post

/-! ## Filesystem model -/

/-- Filesystem tree: a regular file with its byte size, or a directory with
its named entries. -/
inductive FSNode where
  | file (size : Nat)
  | dir (entries : List (String × FSNode))

/-- Child entry of a node (none when the node is a file or the name is
absent); models extending a pathlib path by one component. -/
def FSNode.child (n : FSNode) (name : String) : Option FSNode :=
  match n with
  | .file _ => none
  | .dir es => List.lookup name es

/-- Modelled stat().st_size: exact for files, 4096 for directories. -/
def statSize : FSNode → Nat
  | .file sz => sz
  | .dir _ => 4096

/-- Pattern glob for one extension: entries of a directory whose name ends
with the extension (pathlib glob over a star pattern, case-sensitive). -/
def globExt (entries : List (String × FSNode)) (ext : String) :
    List (String × FSNode) :=
  entries.filter (fun e => strEndsWith e.1 ext)

/-- glob("*.fa") + glob("*.fasta") + glob("*.fna"), as concatenated in the
source. -/
def globFasta (entries : List (String × FSNode)) : List (String × FSNode) :=
  globExt entries ".fa" ++ globExt entries ".fasta" ++ globExt entries ".fna"

/-! ## lib/utils/install_validation.py -/

namespace InstallVal

def TOOL_GROUPS : String → Option (List String)
  | "genome" => some ["checkm2", "drep", "parsing_env"]
  | "prophage" => some ["genomad", "vibrant", "parsing_env"]
  | "annotation" => some ["checkv", "pharokka", "phold", "parsing_env"]
  | _ => none

def ALL_TOOLS : List String :=
  ["checkm2", "drep", "parsing_env", "genomad", "vibrant", "checkv",
   "pharokka", "phold"]

def DATABASE_TOOLS : List String :=
  ["checkm2", "genomad", "vibrant", "checkv", "pharokka", "phold"]

/-- DATABASE_SIZES of the source, declared there as one-decimal GB strings
(2.9GB, 1.4GB, 11.0GB, 6.4GB, 1.9GB, 15.0GB); modelled exactly as tenths of
a GB. -/
def DATABASE_SIZES_tenths : String → Option Nat
  | "checkm2" => some 29
  | "genomad" => some 14
  | "vibrant" => some 110
  | "checkv" => some 64
  | "pharokka" => some 19
  | "phold" => some 150
  | _ => none

def is_valid_tool (t : String) : Bool := ALL_TOOLS.contains t

def is_valid_database (d : String) : Bool := DATABASE_TOOLS.contains d

def is_valid_tool_group (g : String) : Bool := (TOOL_GROUPS g).isSome

/-- One iteration of the expansion loop of expand_tool_groups. -/
def expandStep (t : String) : List String :=
  if t = "all" then ALL_TOOLS
  else
    match TOOL_GROUPS t with
    | some members => members
    | none => if is_valid_tool t then [t] else [t]

/-- Deduplication with a seen set, preserving first-occurrence order. -/
def dedupFrom (seen : List String) : List String → List String
  | [] => []
  | t :: ts => if t ∈ seen then dedupFrom seen ts else t :: dedupFrom (t :: seen) ts

/-- expanded list of expand_tool_groups before deduplication. -/
def expandRaw (tools : List String) : List String :=
  List.flatten (tools.map expandStep)

def expand_tool_groups (tools : List String) : List String :=
  dedupFrom [] (expandRaw tools)

def expand_database_list (databases : List String) : List String :=
  if "all" ∈ databases then DATABASE_TOOLS else databases

/-- Python f-string "%.1fGB" applied to an exact number of tenths of a GB. -/
def formatTenthsGB (n : Nat) : String :=
  Nat.repr (n / 10) ++ "." ++ Nat.repr (n % 10) ++ "GB"

def calculate_total_database_size (databases : List String) : String :=
  formatTenthsGB
    (databases.foldl
      (fun acc d => acc + (DATABASE_SIZES_tenths d).getD 0) 0)

end InstallVal

/-! ## lib/utils/annotation_validation.py -/

namespace AnnotVal

def VALID_CHECKV_QUALITY_LEVELS : List String :=
  ["Complete", "High-quality", "Medium-quality", "Low-quality",
   "Not-determined"]

/-- Result of validate_and_detect_prophage_input; one constructor per
return site of the source function (the final neither-file-nor-directory
return is unreachable in the tree model and has no constructor). -/
inductive ProphageInputResult where
  | ok (mode : String) (resolved : String)
  | pathNotFound (msg : String)
  | invalidExtension (msg : String)
  | emptyInput (msg : String)
  | multipleFasta (count : Nat) (msg : String)
  | noValidInput (msg : String)
deriving DecidableEq

def multipleFastaMsg (n : Nat) : String :=
  "Directory contains multiple FASTA files (" ++ Nat.repr n ++
  " files found). Annotation workflow requires a single merged prophage file. Please use the prophage workflow output or " ++
  "merge sequences into a single file" ++ "."

def noValidInputMsg : String :=
  "Directory does not contain valid prophage input. Expected:\n" ++
  "  - Prophage workflow results (with 2.Prophage_detection/All_prophage_sequences.fasta)\n" ++
  "  - Direct subdirectory (with All_prophage_sequences.fasta)\n" ++
  "  - Single FASTA file"

/-- Nested detection-output marker
path/2.Prophage_detection/All_prophage_sequences.fasta. -/
def workflowMarker (entries : List (String × FSNode)) : Option FSNode :=
  (List.lookup "2.Prophage_detection" entries).bind
    (fun n => FSNode.child n "All_prophage_sequences.fasta")

/-- Embedding of validate_and_detect_prophage_input: prophage_path is the
raw path string, fs the node found there (none when the path does not
exist). -/
def validate_and_detect_prophage_input (prophage_path : String)
    (fs : Option FSNode) : ProphageInputResult :=
  match fs with
  | none => .pathNotFound ("Input path does not exist: " ++ prophage_path)
  | some (.file sz) =>
    if strToLower (pathSuffix prophage_path) ∈ [".fa", ".fasta", ".fna"] then
      if sz = 0 then .emptyInput ("Input file is empty: " ++ prophage_path)
      else .ok "single_file" prophage_path
    else
      .invalidExtension
        ("Invalid file extension " ++ pathSuffix prophage_path ++
         ". Expected one of: .fa, .fasta, .fna")
  | some (.dir entries) =>
    match workflowMarker entries with
    | some m =>
      if statSize m = 0 then
        .emptyInput
          ("Prophage sequences file is empty: " ++ prophage_path ++
           "/2.Prophage_detection/All_prophage_sequences.fasta")
      else .ok "prophage_workflow" prophage_path
    | none =>
      match List.lookup "All_prophage_sequences.fasta" entries with
      | some m =>
        if statSize m = 0 then
          .emptyInput
            ("Prophage sequences file is empty: " ++ prophage_path ++
             "/All_prophage_sequences.fasta")
        else .ok "direct_subdir" prophage_path
      | none =>
        match globFasta entries with
        | [] => .noValidInput noValidInputMsg
        | [(name, n)] =>
          if statSize n = 0 then
            .emptyInput ("Input file is empty: " ++ prophage_path ++ "/" ++ name)
          else .ok "single_file" (prophage_path ++ "/" ++ name)
        | fs' => .multipleFasta fs'.length (multipleFastaMsg fs'.length)

/-- Result of validate_checkv_quality_levels, one constructor per return
site; the levels and invalid lists are the data interpolated into the
messages. -/
inductive QualityLevelsResult where
  | ok (levels : List String)
  | emptyInput (msg : String)
  | noValidLevels (msg : String)
  | invalidLevels (invalid : List String) (msg : String)
deriving DecidableEq

/-- Tokenisation step of validate_checkv_quality_levels:
[level.strip() for level in levels_str.split(",") if level.strip()]. -/
def qualityTokens (s : String) : List String :=
  ((splitComma s).map pyStrip).filter (fun t => t ≠ "")

def invalidLevelsMsg (invalid : List String) : String :=
  "Invalid CheckV quality level(s): " ++ joinCommaSpace invalid ++
  ". Valid levels are: " ++ joinCommaSpace VALID_CHECKV_QUALITY_LEVELS

/-- invalid_levels list accumulated by the scanning loop of
validate_checkv_quality_levels: the tokens outside the valid list, in
input order. -/
def invalidTokens (levels : List String) : List String :=
  levels.filter (fun l => l ∉ VALID_CHECKV_QUALITY_LEVELS)

def validate_checkv_quality_levels (levels_str : String) :
    QualityLevelsResult :=
  if pyStrip levels_str = "" then
    .emptyInput "CheckV quality levels cannot be empty"
  else if qualityTokens levels_str = [] then
    .noValidLevels "No valid quality levels found in input"
  else if invalidTokens (qualityTokens levels_str) ≠ [] then
    .invalidLevels (invalidTokens (qualityTokens levels_str))
      (invalidLevelsMsg (invalidTokens (qualityTokens levels_str)))
  else .ok (qualityTokens levels_str)

/-- Fields of the parsed argument record consulted by
validate_annotation_parameters; percentages are rationals (exact model of
the float defaults), totals integers. -/
structure AnnotArgs where
  skip_detailed_annot : Bool
  annotation_filter_mode : String
  pharokka_structural_perc : ℚ
  pharokka_structural_total : ℤ
  phold_structural_perc : ℚ
  phold_structural_total : ℤ

/-- structural_params_changed list built inside
validate_annotation_parameters. -/
def structuralParamsChanged (a : AnnotArgs) : List String :=
  (if a.pharokka_structural_perc ≠ 10 then ["--pharokka-structural-perc"] else []) ++
  (if a.pharokka_structural_total ≠ 3 then ["--pharokka-structural-total"] else []) ++
  (if a.phold_structural_perc ≠ 10 then ["--phold-structural-perc"] else []) ++
  (if a.phold_structural_total ≠ 3 then ["--phold-structural-total"] else [])

/-- Embedding of validate_annotation_parameters; some msg is the conflict
failure, none is success. The hasattr guard of the source always holds:
the CLI defines --annotation-filter-mode with default combined. -/
def validate_annotation_parameters (a : AnnotArgs) : Option String :=
  if a.skip_detailed_annot then
    if a.annotation_filter_mode ≠ "combined" then
      some ("Cannot specify --annotation-filter-mode when using --skip-detailed-annotation. " ++
            "Structural filtering requires annotation. " ++
            "Remove --skip-detailed-annotation or remove filtering parameters.")
    else if structuralParamsChanged a ≠ [] then
      some ("Cannot specify structural filtering parameters when using --skip-detailed-annotation: " ++
            joinCommaSpace (structuralParamsChanged a) ++
            ". Remove --skip-detailed-annotation or remove structural parameters.")
    else none
  else
    if a.annotation_filter_mode = "pharokka" then
      if a.phold_structural_perc ≠ 10 ∨ a.phold_structural_total ≠ 3 then
        some ("Cannot specify PHOLD structural parameters when filter mode is pharokka. " ++
              "Change filter mode to phold or combined, or remove PHOLD parameters.")
      else none
    else if a.annotation_filter_mode = "phold" then
      if a.pharokka_structural_perc ≠ 10 ∨ a.pharokka_structural_total ≠ 3 then
        some ("Cannot specify Pharokka structural parameters when filter mode is phold. " ++
              "Change filter mode to pharokka or combined, or remove Pharokka parameters.")
      else none
    else none

/-- Result of the annotation validate_databases, one constructor per
return site of the source. -/
inductive DbCheckResult where
  | ok
  | locationMissing (missing : List String) (msg : String)
  | unknownDb (missing : List String) (msg : String)
  | missingDbs (missing : List String) (msg : String)
deriving DecidableEq

def db_dir_mapping : String → Option String
  | "checkv" => some "checkv_database"
  | "pharokka" => some "pharokka_database"
  | "phold" => some "phold_database"
  | _ => none

def locationMissingMsg (db_location : String) : String :=
  "Database location does not exist: " ++ db_location ++
  "\nRun phorager config set --db-location /path/to/databases to set the location."

/-- Scanning loop of validate_databases: first unknown name aborts the
whole scan, known names accumulate the missing ones in list order. -/
def scanDbs (base : FSNode) : List String → Except String (List String)
  | [] => Except.ok []
  | d :: ds =>
    match db_dir_mapping d with
    | none => Except.error d
    | some dirName =>
      match scanDbs base ds with
      | Except.error e => Except.error e
      | Except.ok ms =>
        Except.ok (if (FSNode.child base dirName).isSome then ms else d :: ms)

/-- Presence of the mapped subdirectory of a database name under the base
node (false for names outside the convention table). -/
def dbPresent (base : FSNode) (d : String) : Bool :=
  match db_dir_mapping d with
  | some dirName => (FSNode.child base dirName).isSome
  | none => false

/-- Embedding of the annotation validate_databases; base is the node at
db_location (none when the base directory does not exist). -/
def validate_databases (required_databases : List String)
    (db_location : String) (base : Option FSNode) : DbCheckResult :=
  match base with
  | none => .locationMissing required_databases (locationMissingMsg db_location)
  | some node =>
    match scanDbs node required_databases with
    | Except.error d => .unknownDb [d] ("Unknown database: " ++ d)
    | Except.ok [] => .ok
    | Except.ok missing =>
      .missingDbs missing ("Required database(s) not found in " ++ db_location)

end AnnotVal

/-! ## lib/utils/prophage_validation.py -/

namespace ProphVal

/-- Result of validate_and_detect_genome_input, one constructor per return
site (the final neither-file-nor-directory return is unreachable in the
tree model). -/
inductive GenomeInputResult where
  | ok (mode : String) (resolved : String)
  | pathNotFound (msg : String)
  | invalidExtension (msg : String)
  | noNestedGenomes (msg : String)
  | noGenomeFiles (msg : String)
deriving DecidableEq

/-- Nested genome-QC output layout
path/1.Genome_preprocessing/Bact3_dRep/drep_output/dereplicated_genomes. -/
def bacterialNested (entries : List (String × FSNode)) : Option FSNode :=
  (((List.lookup "1.Genome_preprocessing" entries).bind
      (fun n => FSNode.child n "Bact3_dRep")).bind
    (fun n => FSNode.child n "drep_output")).bind
    (fun n => FSNode.child n "dereplicated_genomes")

/-- Entries of the nested layout when it exists and is a directory
(the source guard bacterial_genomes.exists() and bacterial_genomes.is_dir()). -/
def bacterialNestedDir (entries : List (String × FSNode)) :
    Option (List (String × FSNode)) :=
  match bacterialNested entries with
  | some (.dir ne) => some ne
  | _ => none

def noNestedGenomesMsg (genome_path : String) : String :=
  "Bacterial workflow directory structure found but no genome files in:\n  " ++
  genome_path ++ "/1.Genome_preprocessing/Bact3_dRep/drep_output/dereplicated_genomes"

/-- Embedding of validate_and_detect_genome_input; fs is the node at
genome_path (none when the path does not exist). -/
def validate_and_detect_genome_input (genome_path : String)
    (fs : Option FSNode) : GenomeInputResult :=
  match fs with
  | none => .pathNotFound ("Path does not exist: " ++ genome_path)
  | some (.file _) =>
    if strToLower (pathSuffix genome_path) ∈ [".fa", ".fasta", ".fna"] then
      .ok "file" genome_path
    else
      .invalidExtension
        ("Invalid file extension: " ++ pathSuffix genome_path ++
         ". Must be .fa, .fasta, or .fna")
  | some (.dir entries) =>
    match bacterialNestedDir entries with
    | some ne =>
      if (globFasta ne).isEmpty then .noNestedGenomes (noNestedGenomesMsg genome_path)
      else .ok "bacterial_workflow" genome_path
    | none =>
      if (globFasta entries).isEmpty then
        .noGenomeFiles
          ("Directory contains no .fa, .fasta, or .fna files: " ++ genome_path)
      else .ok "directory" genome_path

/-- One entry of the missing_dbs list of the prophage validate_databases:
display tool name, database name, expected directory path. -/
structure MissingDb where
  tool : String
  db : String
  path : String
deriving DecidableEq

def missingDbsMsg (missing : List MissingDb) : String :=
  "Missing required databases:\n" ++
  String.join (missing.map (fun m => "  - " ++ m.tool ++ ": " ++ m.path ++ " not found\n")) ++
  "\nInstall missing databases with:\n  phorager install --databases " ++
  joinComma (missing.map (fun m => m.db))

/-- Embedding of the prophage validate_databases; base is the node at
db_location (none when the base directory does not exist); some msg is the
failure, none success. -/
def validate_databases (db_location : String) (base : Option FSNode)
    ( skip_genomad skip_vibrant : Bool) : Option String :=
  let childIsSome := fun (name : String) =>
    match base with
    | some n => (FSNode.child n name).isSome
    | none => false
  let missing_dbs :=
    (if !skip_genomad && !childIsSome "genomad_database" then
      [MissingDb.mk "GenoMAD" "genomad" (db_location ++ "/genomad_database")]
     else []) ++
    (if !skip_vibrant && !childIsSome "vibrant_database" then
      [MissingDb.mk "VIBRANT" "vibrant" (db_location ++ "/vibrant_database")]
     else [])
  if missing_dbs = [] then none else some (missingDbsMsg missing_dbs)

end ProphVal

/-! ## lib/utils/bacterial_validation.py -/

namespace BactVal

/-- Embedding of validate_genome_input (the genome-QC classifier); raises
ValueError in the source, modelled as Except. Extension checks use
case-sensitive str.endswith on the whole path, as in the source. -/
def validate_genome_input (genome_path : String) (fs : Option FSNode) :
    Except String String :=
  if genome_path = "" then Except.error "Genome path cannot be empty"
  else
    match fs with
    | none => Except.error ("Genome path does not exist: " ++ genome_path)
    | some (.file _) =>
      if strEndsWith genome_path ".fa" || strEndsWith genome_path ".fasta" ||
         strEndsWith genome_path ".fna" then
        Except.ok genome_path
      else
        Except.error
          ("Invalid genome file extension. Must end with .fa, .fasta, .fna: " ++
           genome_path)
    | some (.dir entries) =>
      let genome_files :=
        (entries.filter (fun e => strEndsWith e.1 ".fa")) ++
        (entries.filter (fun e => strEndsWith e.1 ".fasta")) ++
        (entries.filter (fun e => strEndsWith e.1 ".fna"))
      if genome_files.isEmpty then
        Except.error
          ("No genome files found in directory. Files must end with .fa, .fasta, or .fna: " ++
           genome_path)
      else Except.ok genome_path

end BactVal

/-! ## Theorems -/

section InstallLemmas

open InstallVal

theorem mem_dedupFrom (x : String) (l : List String) :
    ∀ seen, x ∈ dedupFrom seen l ↔ x ∈ l ∧ x ∉ seen := by
  induction l with
  | nil => intro seen; simp [dedupFrom]
  | cons t ts ih =>
    intro seen
    by_cases h : t ∈ seen
    · simp only [dedupFrom, if_pos h, ih seen, List.mem_cons]
      constructor
      · rintro ⟨hx, hs⟩; exact ⟨Or.inr hx, hs⟩
      · rintro ⟨hx | hx, hs⟩
        · exact absurd h (hx ▸ hs)
        · exact ⟨hx, hs⟩
    · by_cases hxt : x = t
      · subst hxt
        simp [dedupFrom, if_neg h, h]
      · simp only [dedupFrom, if_neg h, List.mem_cons, ih (t :: seen), hxt,
          false_or]

theorem nodup_dedupFrom (l : List String) :
    ∀ seen, (dedupFrom seen l).Nodup := by
  induction l with
  | nil => intro seen; simp [dedupFrom]
  | cons t ts ih =>
    intro seen
    by_cases h : t ∈ seen
    · simpa only [dedupFrom, if_pos h] using ih seen
    · simp only [dedupFrom, if_neg h, List.nodup_cons]
      refine ⟨fun hm => ?_, ih (t :: seen)⟩
      exact ((mem_dedupFrom t ts (t :: seen)).mp hm).2 (List.mem_cons_self _ _)

theorem dedupFrom_eq_self (l : List String) :
    ∀ seen, l.Nodup → (∀ x ∈ l, x ∉ seen) → dedupFrom seen l = l := by
  induction l with
  | nil => intro seen _ _; rfl
  | cons t ts ih =>
    intro seen hnd hs
    have ht : t ∉ seen := hs t (List.mem_cons_self _ _)
    simp only [dedupFrom, if_neg ht]
    congr 1
    refine ih (t :: seen) (List.Nodup.of_cons hnd) (fun x hx hm => ?_)
    rcases List.mem_cons.mp hm with h1 | h1
    · exact (List.nodup_cons.mp hnd).1 (h1 ▸ hx)
    · exact hs x (List.mem_cons_of_mem _ hx) h1

theorem all_tools_flat : ∀ x ∈ ALL_TOOLS, x ≠ "all" ∧ TOOL_GROUPS x = none := by
  decide

theorem group_members_sub (g : String) (ms : List String)
    (h : TOOL_GROUPS g = some ms) : ∀ x ∈ ms, x ∈ ALL_TOOLS := by
  unfold TOOL_GROUPS at h
  split at h
  · cases h; decide
  · cases h; decide
  · cases h; decide
  · exact Option.noConfusion h

theorem expandStep_flat (t : String) :
    ∀ x ∈ expandStep t, x ≠ "all" ∧ TOOL_GROUPS x = none := by
  intro x hx
  unfold expandStep at hx
  split at hx
  · exact all_tools_flat x hx
  · split at hx
    · next heq => exact all_tools_flat x (group_members_sub _ _ heq x hx)
    · next heq =>
      rw [ite_self] at hx
      rcases List.mem_singleton.mp hx with rfl
      exact ⟨by assumption, heq⟩

theorem mem_expandRaw_flat (ts : List String) :
    ∀ x ∈ expandRaw ts, x ≠ "all" ∧ TOOL_GROUPS x = none := by
  intro x hx
  rw [expandRaw, List.mem_flatten] at hx
  obtain ⟨s, hs, hxs⟩ := hx
  obtain ⟨t, _, rfl⟩ := List.mem_map.mp hs
  exact expandStep_flat t x hxs

theorem expandRaw_eq_self (l : List String)
    (h : ∀ x ∈ l, x ≠ "all" ∧ TOOL_GROUPS x = none) : expandRaw l = l := by
  induction l with
  | nil => rfl
  | cons t ts ih =>
    have ht := h t (List.mem_cons_self _ _)
    have hstep : expandStep t = [t] := by
      unfold expandStep
      rw [if_neg ht.1, ht.2, ite_self]
    simp only [expandRaw, List.map_cons, List.flatten_cons, hstep]
    simp only [List.singleton_append, List.cons.injEq, true_and]
    exact ih (fun x hx => h x (List.mem_cons_of_mem _ hx))

theorem mem_expand_flat (ts : List String) :
    ∀ x ∈ expand_tool_groups ts, x ≠ "all" ∧ TOOL_GROUPS x = none := by
  intro x hx
  rw [expand_tool_groups, mem_dedupFrom] at hx
  exact mem_expandRaw_flat ts x hx.1

theorem expand_tool_groups_idem (ts : List String) :
    expand_tool_groups (expand_tool_groups ts) = expand_tool_groups ts := by
  conv_lhs => rw [expand_tool_groups, expandRaw_eq_self _ (mem_expand_flat ts)]
  exact dedupFrom_eq_self _ []
    (by rw [expand_tool_groups]; exact nodup_dedupFrom _ _)
    (by simp)

end InstallLemmas

/-- Claim C7: tool-list expansion deduplicates preserving first-occurrence
order and is idempotent: expanding the genome and prophage groups yields the
genome members followed by the prophage members with the shared parsing_env
appearing exactly once at its first-occurrence position; expanding all
yields the eight canonical tool names exactly once each in catalog order;
and expanding any expansion result again returns it unchanged. -/
theorem c7_expansion_idempotent :
    InstallVal.expand_tool_groups ["genome", "prophage"] =
      ["checkm2", "drep", "parsing_env", "genomad", "vibrant"] ∧
    (InstallVal.expand_tool_groups ["genome", "prophage"]).count "parsing_env" = 1 ∧
    InstallVal.expand_tool_groups ["all"] = InstallVal.ALL_TOOLS ∧
    InstallVal.ALL_TOOLS.length = 8 ∧ InstallVal.ALL_TOOLS.Nodup ∧
    ∀ ts : List String,
      InstallVal.expand_tool_groups (InstallVal.expand_tool_groups ts) =
        InstallVal.expand_tool_groups ts :=
  ⟨by decide, by decide, by decide, by decide, by decide,
   expand_tool_groups_idem⟩

/-- Claim C8 counterexample: the database variant of list expansion does
not preserve unrecognized tokens when the wildcard is present — expanding
[foo, all] yields exactly the canonical database list, with foo dropped. -/
theorem c8_counterexample :
    InstallVal.expand_database_list ["foo", "all"] = InstallVal.DATABASE_TOOLS ∧
    "foo" ∉ InstallVal.expand_database_list ["foo", "all"] := by
  constructor
  · decide
  · decide

theorem tool_groups_none_of_invalid (t : String)
    (hg : InstallVal.is_valid_tool_group t = false) :
    InstallVal.TOOL_GROUPS t = none := by
  cases hTG : InstallVal.TOOL_GROUPS t with
  | none => rfl
  | some ms =>
    rw [InstallVal.is_valid_tool_group, hTG] at hg
    simp at hg

/-- Claim C8 (amended): neither expansion fails; the tool variant preserves
every token that is not the wildcard, not a group name and not a tool name;
the database variant returns its input unchanged when the wildcard is
absent (so unrecognized tokens appear as-is), but when the wildcard is
present it returns exactly the canonical database list, dropping every
other token. -/
theorem c8_amended_expansion_passthrough :
    (∀ ts t, t ∈ ts → t ≠ "all" → InstallVal.is_valid_tool_group t = false →
       InstallVal.is_valid_tool t = false → t ∈ InstallVal.expand_tool_groups ts) ∧
    (∀ ds, "all" ∉ ds → InstallVal.expand_database_list ds = ds) ∧
    (∀ ds, "all" ∈ ds →
       InstallVal.expand_database_list ds = InstallVal.DATABASE_TOOLS) := by
  refine ⟨?_, ?_, ?_⟩
  · intro ts t htm hta hg _
    rw [InstallVal.expand_tool_groups, mem_dedupFrom]
    refine ⟨?_, by simp⟩
    rw [InstallVal.expandRaw, List.mem_flatten]
    refine ⟨InstallVal.expandStep t, List.mem_map.mpr ⟨t, htm, rfl⟩, ?_⟩
    simp only [InstallVal.expandStep, if_neg hta, tool_groups_none_of_invalid t hg,
      ite_self]
    exact List.mem_singleton.mpr rfl
  · intro ds h
    rw [InstallVal.expand_database_list, if_neg h]
  · intro ds h
    rw [InstallVal.expand_database_list, if_pos h]

/-- Claim C8 witness: concrete instances of the amended statement. -/
theorem c8_witness :
    "zzz" ∈ InstallVal.expand_tool_groups ["zzz", "genome"] ∧
    InstallVal.expand_database_list ["checkm2", "zzz"] = ["checkm2", "zzz"] ∧
    InstallVal.expand_database_list ["all"] = InstallVal.DATABASE_TOOLS := by
  refine ⟨?_, ?_, ?_⟩
  · exact c8_amended_expansion_passthrough.1 ["zzz", "genome"] "zzz"
      (by decide) (by decide) (by decide) (by decide)
  · exact c8_amended_expansion_passthrough.2.1 ["checkm2", "zzz"] (by decide)
  · exact c8_amended_expansion_passthrough.2.2 ["all"] (by decide)

theorem foldl_add_map_sum (f : String → Nat) (l : List String) :
    ∀ acc, l.foldl (fun a d => a + f d) acc = acc + (l.map f).sum := by
  induction l with
  | nil => intro acc; simp
  | cons d ds ih =>
    intro acc
    simp [List.foldl_cons, ih, Nat.add_assoc]

theorem sum_map_filter_of_zero (f : String → Nat) (p : String → Bool)
    (l : List String) (h : ∀ d, p d = false → f d = 0) :
    (l.map f).sum = ((l.filter p).map f).sum := by
  induction l with
  | nil => rfl
  | cons d ds ih =>
    cases hp : p d with
    | true => simp [List.filter_cons, hp, ih]
    | false => simp [List.filter_cons, hp, ih, h d hp]

/-- Claim C10: the total-download-size computation is total; it is the sum
of the declared sizes with every unrecognized name contributing zero (so
stripping unrecognized names leaves the result unchanged), and the output
is always a decimal with exactly one fractional digit followed by the GB
suffix; in particular checkm2 + vibrant with a bogus name gives 13.9GB. -/
theorem c10_total_size :
    (∀ dbs, InstallVal.calculate_total_database_size dbs =
       InstallVal.formatTenthsGB
         ((dbs.map (fun d => (InstallVal.DATABASE_SIZES_tenths d).getD 0)).sum)) ∧
    (∀ dbs, InstallVal.calculate_total_database_size dbs =
       InstallVal.calculate_total_database_size
         (dbs.filter (fun d => (InstallVal.DATABASE_SIZES_tenths d).isSome))) ∧
    (∀ dbs, ∃ whole frac, frac < 10 ∧
       InstallVal.calculate_total_database_size dbs =
         Nat.repr whole ++ "." ++ Nat.repr frac ++ "GB") ∧
    InstallVal.calculate_total_database_size ["checkm2", "bogus", "vibrant"] =
      "13.9GB" := by
  have h1 : ∀ dbs : List String,
      InstallVal.calculate_total_database_size dbs =
        InstallVal.formatTenthsGB
          ((dbs.map (fun d => (InstallVal.DATABASE_SIZES_tenths d).getD 0)).sum) := by
    intro dbs
    rw [InstallVal.calculate_total_database_size, foldl_add_map_sum, Nat.zero_add]
  refine ⟨h1, ?_, ?_, by decide⟩
  · intro dbs
    rw [h1, h1]
    congr 1
    exact sum_map_filter_of_zero _ _ dbs
      (fun d hd => by
        cases hD : InstallVal.DATABASE_SIZES_tenths d with
        | none => rfl
        | some v => rw [hD] at hd; simp at hd)
  · intro dbs
    exact ⟨_, _, Nat.mod_lt _ (by norm_num), rfl⟩

/-- Claim C9 counterexample: the input consisting of a single comma is not
empty, not whitespace-only, and contains no token outside the five tier
names (it contains no tokens at all), so the claim requires success; the
code fails with the no-valid-levels error instead. -/
theorem c9_counterexample :
    AnnotVal.validate_checkv_quality_levels "," =
      AnnotVal.QualityLevelsResult.noValidLevels
        "No valid quality levels found in input" ∧
    pyStrip "," ≠ "" ∧ AnnotVal.qualityTokens "," = [] := by
  refine ⟨?_, ?_, ?_⟩
  · decide
  · decide
  · decide

/-- Claim C9 (amended): an empty or whitespace-only string fails with the
empty-input error; a non-whitespace string whose tokenisation (comma split,
strip, drop empty pieces) yields no tokens — e.g. a comma-only string —
fails with the no-valid-levels error rather than succeeding; when some
token lies outside the five tier names the validation fails listing exactly
the offending tokens, in input order, none of which is a valid tier name
(the message additionally names the five valid tiers as guidance);
otherwise it succeeds returning the tier names in input order. -/
theorem c9_amended_quality_levels (s : String) :
    (pyStrip s = "" →
       AnnotVal.validate_checkv_quality_levels s =
         AnnotVal.QualityLevelsResult.emptyInput
           "CheckV quality levels cannot be empty") ∧
    (pyStrip s ≠ "" → AnnotVal.qualityTokens s = [] →
       AnnotVal.validate_checkv_quality_levels s =
         AnnotVal.QualityLevelsResult.noValidLevels
           "No valid quality levels found in input") ∧
    (pyStrip s ≠ "" →
       AnnotVal.invalidTokens (AnnotVal.qualityTokens s) ≠ [] →
       AnnotVal.validate_checkv_quality_levels s =
         AnnotVal.QualityLevelsResult.invalidLevels
           (AnnotVal.invalidTokens (AnnotVal.qualityTokens s))
           (AnnotVal.invalidLevelsMsg
             (AnnotVal.invalidTokens (AnnotVal.qualityTokens s))) ∧
       ∀ t ∈ AnnotVal.invalidTokens (AnnotVal.qualityTokens s),
         t ∉ AnnotVal.VALID_CHECKV_QUALITY_LEVELS) ∧
    (pyStrip s ≠ "" → AnnotVal.qualityTokens s ≠ [] →
       AnnotVal.invalidTokens (AnnotVal.qualityTokens s) = [] →
       AnnotVal.validate_checkv_quality_levels s =
         AnnotVal.QualityLevelsResult.ok (AnnotVal.qualityTokens s)) := by
  refine ⟨?_, ?_, ?_, ?_⟩
  · intro hstrip
    rw [AnnotVal.validate_checkv_quality_levels, if_pos hstrip]
  · intro hstrip htok
    rw [AnnotVal.validate_checkv_quality_levels, if_neg hstrip, if_pos htok]
  · intro hstrip hinv
    have htok : AnnotVal.qualityTokens s ≠ [] := by
      intro h
      rw [AnnotVal.invalidTokens, h] at hinv
      exact hinv rfl
    refine ⟨?_, ?_⟩
    · rw [AnnotVal.validate_checkv_quality_levels, if_neg hstrip, if_neg htok,
        if_pos hinv]
    · intro t ht
      rw [AnnotVal.invalidTokens] at ht
      have := List.of_mem_filter ht
      simpa using this
  · intro hstrip htok hinv
    rw [AnnotVal.validate_checkv_quality_levels, if_neg hstrip, if_neg htok,
      if_neg (by rw [hinv]; exact fun h => h rfl)]

/-- Claim C9 witness: concrete instances of the amended statement — the
scenario string fails listing Invalid as the sole offending token, the
empty string fails with the empty-input error, and a valid selection
succeeds in input order. -/
theorem c9_witness :
    AnnotVal.validate_checkv_quality_levels "Complete,Invalid,High-quality" =
      AnnotVal.QualityLevelsResult.invalidLevels ["Invalid"]
        (AnnotVal.invalidLevelsMsg ["Invalid"]) ∧
    AnnotVal.validate_checkv_quality_levels "" =
      AnnotVal.QualityLevelsResult.emptyInput
        "CheckV quality levels cannot be empty" ∧
    AnnotVal.validate_checkv_quality_levels "High-quality,Complete" =
      AnnotVal.QualityLevelsResult.ok ["High-quality", "Complete"] := by
  refine ⟨?_, ?_, ?_⟩
  · have h := ((c9_amended_quality_levels "Complete,Invalid,High-quality").2.2.1
      (by decide) (by decide)).1
    rw [h]
    decide
  · exact (c9_amended_quality_levels "").1 (by decide)
  · have h := (c9_amended_quality_levels "High-quality,Complete").2.2.2
      (by decide) (by decide) (by decide)
    rw [h]
    decide

/-- Claim C5: with the skip shortcut enabled, the conflict validation fails
exactly when the filter mode differs from combined or any of the four
structural thresholds differs from its default (percentage 10.0, total 3),
and succeeds when all are at defaults; without the shortcut, mode pharokka
fails exactly on a non-default PHOLD threshold, mode phold exactly on a
non-default Pharokka threshold, and mode combined never fails. -/
theorem c5_annot_param_conflicts (a : AnnotVal.AnnotArgs) :
    (a.skip_detailed_annot = true →
       ((AnnotVal.validate_annotation_parameters a).isSome ↔
         (a.annotation_filter_mode ≠ "combined" ∨
          a.pharokka_structural_perc ≠ 10 ∨ a.pharokka_structural_total ≠ 3 ∨
          a.phold_structural_perc ≠ 10 ∨ a.phold_structural_total ≠ 3))) ∧
    (a.skip_detailed_annot = false → a.annotation_filter_mode = "pharokka" →
       ((AnnotVal.validate_annotation_parameters a).isSome ↔
         (a.phold_structural_perc ≠ 10 ∨ a.phold_structural_total ≠ 3))) ∧
    (a.skip_detailed_annot = false → a.annotation_filter_mode = "phold" →
       ((AnnotVal.validate_annotation_parameters a).isSome ↔
         (a.pharokka_structural_perc ≠ 10 ∨ a.pharokka_structural_total ≠ 3))) ∧
    (a.skip_detailed_annot = false → a.annotation_filter_mode = "combined" →
       AnnotVal.validate_annotation_parameters a = none) := by
  obtain ⟨sk, m, pp, pt, hp, ht⟩ := a
  refine ⟨?_, ?_, ?_, ?_⟩
  · rintro rfl
    by_cases hm : m = "combined"
    · subst hm
      by_cases h1 : pp = 10 <;> by_cases h2 : pt = 3 <;>
        by_cases h3 : hp = 10 <;> by_cases h4 : ht = 3 <;>
        simp [AnnotVal.validate_annotation_parameters,
          AnnotVal.structuralParamsChanged, h1, h2, h3, h4]
    · simp [AnnotVal.validate_annotation_parameters, hm]
  · rintro rfl hm
    subst hm
    by_cases h3 : hp = 10 <;> by_cases h4 : ht = 3 <;>
      simp [AnnotVal.validate_annotation_parameters, h3, h4]
  · rintro rfl hm
    subst hm
    by_cases h1 : pp = 10 <;> by_cases h2 : pt = 3 <;>
      simp [AnnotVal.validate_annotation_parameters, h1, h2]
  · rintro rfl hm
    subst hm
    simp [AnnotVal.validate_annotation_parameters]

/-- Claim C5 witness: concrete instances — skipping with a changed PHOLD
percentage fails, skipping with everything at defaults succeeds, and
combined mode accepts arbitrary thresholds. -/
theorem c5_witness :
    (AnnotVal.validate_annotation_parameters
      (AnnotVal.AnnotArgs.mk true "combined" 10 3 25 3)).isSome ∧
    AnnotVal.validate_annotation_parameters
      (AnnotVal.AnnotArgs.mk true "combined" 10 3 10 3) = none ∧
    AnnotVal.validate_annotation_parameters
      (AnnotVal.AnnotArgs.mk false "combined" 55 17 25 9) = none := by
  refine ⟨?_, ?_, ?_⟩
  · exact ((c5_annot_param_conflicts _).1 rfl).mpr
      (Or.inr (Or.inr (Or.inr (Or.inl (by norm_num)))))
  · have h := ((c5_annot_param_conflicts
      (AnnotVal.AnnotArgs.mk true "combined" 10 3 10 3)).1 rfl)
    by_contra hne
    have : (AnnotVal.validate_annotation_parameters
        (AnnotVal.AnnotArgs.mk true "combined" 10 3 10 3)).isSome := by
      cases hv : AnnotVal.validate_annotation_parameters
          (AnnotVal.AnnotArgs.mk true "combined" 10 3 10 3) with
      | none => exact absurd hv hne
      | some v => simp
    rcases h.mp this with h1 | h1 | h1 | h1 | h1 <;> simp at h1
  · exact (c5_annot_param_conflicts _).2.2.2 rfl rfl

theorem scanDbs_eq_filter (base : FSNode) (req : List String)
    (h : ∀ d ∈ req, (AnnotVal.db_dir_mapping d).isSome = true) :
    AnnotVal.scanDbs base req =
      Except.ok (req.filter (fun d => !AnnotVal.dbPresent base d)) := by
  induction req with
  | nil => rfl
  | cons d ds ih =>
    have hd := h d (List.mem_cons_self _ _)
    obtain ⟨dirName, hdir⟩ := Option.isSome_iff_exists.mp hd
    have hds : ∀ x ∈ ds, (AnnotVal.db_dir_mapping x).isSome = true :=
      fun x hx => h x (List.mem_cons_of_mem _ hx)
    have hpres : AnnotVal.dbPresent base d = (FSNode.child base dirName).isSome := by
      rw [AnnotVal.dbPresent, hdir]
    cases hc : (FSNode.child base dirName).isSome with
    | true => simp [AnnotVal.scanDbs, hdir, ih hds, List.filter_cons, hpres, hc]
    | false => simp [AnnotVal.scanDbs, hdir, ih hds, List.filter_cons, hpres, hc]

/-- Claim C6: with an existing base directory and a required list of known
names, the annotation database check reports exactly the names whose mapped
subdirectory is absent, in the order of the required list (hence never
short-circuiting at the first miss), succeeding when that list is empty. -/
theorem c6_missing_databases_exact (required : List String)
    (db_location : String) (base : FSNode)
    (h : ∀ d ∈ required, (AnnotVal.db_dir_mapping d).isSome = true) :
    AnnotVal.validate_databases required db_location (some base) =
      (match required.filter (fun d => !AnnotVal.dbPresent base d) with
       | [] => AnnotVal.DbCheckResult.ok
       | missing =>
         AnnotVal.DbCheckResult.missingDbs missing
           ("Required database(s) not found in " ++ db_location)) := by
  rw [AnnotVal.validate_databases, scanDbs_eq_filter base required h]
  cases required.filter (fun d => !AnnotVal.dbPresent base d) with
  | nil => rfl
  | cons x xs => rfl

/-- Claim C6 witness: over the base directory holding only the checkv and
phold database subdirectories, the required set listed in either order
reports exactly pharokka. -/
theorem c6_witness :
    AnnotVal.validate_databases ["checkv", "pharokka", "phold"] "/db"
      (some (FSNode.dir
        [("checkv_database", FSNode.dir []), ("phold_database", FSNode.dir [])])) =
      AnnotVal.DbCheckResult.missingDbs ["pharokka"]
        "Required database(s) not found in /db" ∧
    AnnotVal.validate_databases ["phold", "pharokka", "checkv"] "/db"
      (some (FSNode.dir
        [("checkv_database", FSNode.dir []), ("phold_database", FSNode.dir [])])) =
      AnnotVal.DbCheckResult.missingDbs ["pharokka"]
        "Required database(s) not found in /db" := by
  constructor
  · rw [c6_missing_databases_exact _ _ _ (by decide)]
    decide
  · rw [c6_missing_databases_exact _ _ _ (by decide)]
    decide

/-- Claim C3 counterexample: the prophage-detection database check, run
against a non-existent base location, does not fail terminally with a
location-missing error — with both tools enabled it performs the
per-database checks and reports both databases missing with the install
remediation message, and with both tools skipped it even succeeds. -/
theorem c3_counterexample :
    ProphVal.validate_databases "/db" none false false =
      some ("Missing required databases:\n" ++
        "  - GenoMAD: /db/genomad_database not found\n" ++
        "  - VIBRANT: /db/vibrant_database not found\n" ++
        "\nInstall missing databases with:\n  phorager install --databases genomad,vibrant") ∧
    ProphVal.validate_databases "/db" none true true = none := by
  constructor
  · rfl
  · rfl

/-- Claim C3 (amended): only the annotation database check fails terminally
with the location-missing error when the base directory does not exist,
reporting the whole required list without any per-database check; the
prophage-detection check has no base-existence test — over a missing base
it reports each enabled tool s database individually as missing, and when
both tools are skipped it succeeds despite the missing base. -/
theorem c3_amended_database_location_checks :
    (∀ (required : List String) (db_location : String),
       AnnotVal.validate_databases required db_location none =
         AnnotVal.DbCheckResult.locationMissing required
           (AnnotVal.locationMissingMsg db_location)) ∧
    (∀ db_location : String,
       ProphVal.validate_databases db_location none false false =
         some (ProphVal.missingDbsMsg
           [ProphVal.MissingDb.mk "GenoMAD" "genomad"
              (db_location ++ "/genomad_database"),
            ProphVal.MissingDb.mk "VIBRANT" "vibrant"
              (db_location ++ "/vibrant_database")])) ∧
    (∀ db_location : String,
       ProphVal.validate_databases db_location none true true = none) := by
  refine ⟨?_, ?_, ?_⟩
  · intro required db_location
    rfl
  · intro db_location
    rfl
  · intro db_location
    rfl

/-- Claim C1 counterexample: a zero-byte file with an allowed extension is
accepted by the prophage-detection classifier (mode file) and by the
genome-QC classifier, with no empty-input failure. -/
theorem c1_counterexample :
    ProphVal.validate_and_detect_genome_input "genome.fa"
      (some (FSNode.file 0)) =
      ProphVal.GenomeInputResult.ok "file" "genome.fa" ∧
    BactVal.validate_genome_input "genome.fa" (some (FSNode.file 0)) =
      Except.ok "genome.fa" := by
  constructor
  · rfl
  · rfl

/-- Claim C1 (amended): only the annotation classifier rejects zero-byte
files — for every existing regular file with an allowed extension and size
zero it fails with the empty-input error — while the prophage-detection
classifier accepts such a file with mode file and the genome-QC classifier
accepts it as well, neither performing a size check. -/
theorem c1_amended_empty_file_checks :
    (∀ (p : String) (sz : Nat),
       strToLower (pathSuffix p) ∈ [".fa", ".fasta", ".fna"] → sz = 0 →
       AnnotVal.validate_and_detect_prophage_input p (some (FSNode.file sz)) =
         AnnotVal.ProphageInputResult.emptyInput ("Input file is empty: " ++ p)) ∧
    (∀ p : String,
       strToLower (pathSuffix p) ∈ [".fa", ".fasta", ".fna"] →
       ProphVal.validate_and_detect_genome_input p (some (FSNode.file 0)) =
         ProphVal.GenomeInputResult.ok "file" p) ∧
    (∀ p : String, p ≠ "" →
       (strEndsWith p ".fa" || strEndsWith p ".fasta" || strEndsWith p ".fna") = true →
       BactVal.validate_genome_input p (some (FSNode.file 0)) =
         Except.ok p) := by
  refine ⟨?_, ?_, ?_⟩
  · intro p sz hext hsz
    subst hsz
    simp only [AnnotVal.validate_and_detect_prophage_input]
    rw [if_pos hext]
    simp
  · intro p hext
    simp only [ProphVal.validate_and_detect_genome_input]
    rw [if_pos hext]
  · intro p hne hext
    simp only [BactVal.validate_genome_input]
    rw [if_neg hne, if_pos hext]

/-- Claim C1 witness: the amended statement applied to an empty .fa file. -/
theorem c1_witness :
    AnnotVal.validate_and_detect_prophage_input "g.fa" (some (FSNode.file 0)) =
      AnnotVal.ProphageInputResult.emptyInput "Input file is empty: g.fa" ∧
    ProphVal.validate_and_detect_genome_input "g.fa" (some (FSNode.file 0)) =
      ProphVal.GenomeInputResult.ok "file" "g.fa" ∧
    BactVal.validate_genome_input "g.fa" (some (FSNode.file 0)) =
      Except.ok "g.fa" :=
  ⟨c1_amended_empty_file_checks.1 "g.fa" 0 (by decide) rfl,
   c1_amended_empty_file_checks.2.1 "g.fa" (by decide),
   c1_amended_empty_file_checks.2.2 "g.fa" (by decide) (by decide)⟩

/-- Claim C2 counterexample: a directory whose nested genome-QC layout is
present but holds no allowed-extension file, while the directory itself
holds genome.fa, is rejected with the nested-structure-empty error — there
is no fallback to the directory scan that the claim requires (which would
give mode directory). -/
theorem c2_counterexample :
    ProphVal.validate_and_detect_genome_input "results"
      (some (FSNode.dir
        [("1.Genome_preprocessing", FSNode.dir
           [("Bact3_dRep", FSNode.dir
              [("drep_output", FSNode.dir
                 [("dereplicated_genomes", FSNode.dir [])])])]),
         ("genome.fa", FSNode.file 5)])) =
      ProphVal.GenomeInputResult.noNestedGenomes
        (ProphVal.noNestedGenomesMsg "results") := by
  rfl

/-- Claim C2 (amended): for a directory input of the prophage-detection
classifier, when the nested genome-QC layout exists as a directory the
classification is decided there — mode bacterial_workflow when it holds at
least one allowed-extension entry, the nested-structure-empty failure
otherwise, with no fallback; only when the nested layout does not exist as
a directory is the directory itself scanned, giving mode directory when at
least one allowed-extension entry is found and the no-genome-files failure
otherwise. -/
theorem c2_amended_genome_dir_classification (p : String)
    (entries : List (String × FSNode)) :
    (∀ ne, ProphVal.bacterialNestedDir entries = some ne →
       (globFasta ne).isEmpty = false →
       ProphVal.validate_and_detect_genome_input p (some (FSNode.dir entries)) =
         ProphVal.GenomeInputResult.ok "bacterial_workflow" p) ∧
    (∀ ne, ProphVal.bacterialNestedDir entries = some ne →
       (globFasta ne).isEmpty = true →
       ProphVal.validate_and_detect_genome_input p (some (FSNode.dir entries)) =
         ProphVal.GenomeInputResult.noNestedGenomes
           (ProphVal.noNestedGenomesMsg p)) ∧
    (ProphVal.bacterialNestedDir entries = none →
       (globFasta entries).isEmpty = false →
       ProphVal.validate_and_detect_genome_input p (some (FSNode.dir entries)) =
         ProphVal.GenomeInputResult.ok "directory" p) ∧
    (ProphVal.bacterialNestedDir entries = none →
       (globFasta entries).isEmpty = true →
       ProphVal.validate_and_detect_genome_input p (some (FSNode.dir entries)) =
         ProphVal.GenomeInputResult.noGenomeFiles
           ("Directory contains no .fa, .fasta, or .fna files: " ++ p)) := by
  refine ⟨?_, ?_, ?_, ?_⟩
  · intro ne hnested hglob
    simp [ProphVal.validate_and_detect_genome_input, hnested, hglob]
  · intro ne hnested hglob
    simp [ProphVal.validate_and_detect_genome_input, hnested, hglob]
  · intro hnested hglob
    simp [ProphVal.validate_and_detect_genome_input, hnested, hglob]
  · intro hnested hglob
    simp [ProphVal.validate_and_detect_genome_input, hnested, hglob]

/-- Claim C2 witness: the amended statement applied to a populated nested
layout, a plain genome directory, and an empty directory. -/
theorem c2_witness :
    ProphVal.validate_and_detect_genome_input "results"
      (some (FSNode.dir
        [("1.Genome_preprocessing", FSNode.dir
           [("Bact3_dRep", FSNode.dir
              [("drep_output", FSNode.dir
                 [("dereplicated_genomes",
                   FSNode.dir [("g1.fna", FSNode.file 9)])])])])])) =
      ProphVal.GenomeInputResult.ok "bacterial_workflow" "results" ∧
    ProphVal.validate_and_detect_genome_input "gdir"
      (some (FSNode.dir [("a.fasta", FSNode.file 3)])) =
      ProphVal.GenomeInputResult.ok "directory" "gdir" ∧
    ProphVal.validate_and_detect_genome_input "empty"
      (some (FSNode.dir [])) =
      ProphVal.GenomeInputResult.noGenomeFiles
        "Directory contains no .fa, .fasta, or .fna files: empty" :=
  ⟨(c2_amended_genome_dir_classification "results" _).1
      [("g1.fna", FSNode.file 9)] rfl rfl,
   (c2_amended_genome_dir_classification "gdir" _).2.2.1 rfl rfl,
   (c2_amended_genome_dir_classification "empty" _).2.2.2 rfl rfl⟩

theorem multipleFastaMsg_count (n : Nat) :
    containsStr (AnnotVal.multipleFastaMsg n) (Nat.repr n) := by
  refine ⟨"Directory contains multiple FASTA files (",
    " files found). Annotation workflow requires a single merged prophage file. Please use the prophage workflow output or " ++
    ("merge sequences into a single file" ++ "."), ?_⟩
  rw [AnnotVal.multipleFastaMsg, String.append_assoc, String.append_assoc]

theorem multipleFastaMsg_merge (n : Nat) :
    containsStr (AnnotVal.multipleFastaMsg n)
      "merge sequences into a single file" := by
  exact ⟨"Directory contains multiple FASTA files (" ++ Nat.repr n ++
    " files found). Annotation workflow requires a single merged prophage file. Please use the prophage workflow output or ",
    ".", rfl⟩

/-- Claim C4 counterexample: an empty directory produces none of the four
outcomes the claim enumerates — the classification fails with the composite
no-valid-input error, a fifth outcome. -/
theorem c4_counterexample :
    AnnotVal.validate_and_detect_prophage_input "pdir" (some (FSNode.dir [])) =
      AnnotVal.ProphageInputResult.noValidInput AnnotVal.noValidInputMsg := by
  rfl

/-- Claim C4 (amended): for a directory input of the annotation classifier
the checks run in this order, and there are seven outcomes rather than
four: a nested detection-output marker decides immediately
(prophage_workflow when non-empty, the empty-file error when empty, with no
fall-through); otherwise a direct marker decides immediately (direct_subdir
when non-empty, the empty-file error when empty); otherwise with zero loose
allowed-extension files the composite no-valid-input error is produced;
with exactly one such file the mode is single_file at that file s path
(empty-file error if it is empty); with two or more the classification
fails with the multiple-files error whose message contains the file count
and the merge-into-a-single-file guidance. -/
theorem c4_amended_annot_dir_classification (p : String)
    (entries : List (String × FSNode)) :
    (∀ m, AnnotVal.workflowMarker entries = some m → statSize m ≠ 0 →
       AnnotVal.validate_and_detect_prophage_input p (some (FSNode.dir entries)) =
         AnnotVal.ProphageInputResult.ok "prophage_workflow" p) ∧
    (∀ m, AnnotVal.workflowMarker entries = some m → statSize m = 0 →
       AnnotVal.validate_and_detect_prophage_input p (some (FSNode.dir entries)) =
         AnnotVal.ProphageInputResult.emptyInput
           ("Prophage sequences file is empty: " ++ p ++
            "/2.Prophage_detection/All_prophage_sequences.fasta")) ∧
    (AnnotVal.workflowMarker entries = none →
       ∀ m, List.lookup "All_prophage_sequences.fasta" entries = some m →
       statSize m ≠ 0 →
       AnnotVal.validate_and_detect_prophage_input p (some (FSNode.dir entries)) =
         AnnotVal.ProphageInputResult.ok "direct_subdir" p) ∧
    (AnnotVal.workflowMarker entries = none →
       ∀ m, List.lookup "All_prophage_sequences.fasta" entries = some m →
       statSize m = 0 →
       AnnotVal.validate_and_detect_prophage_input p (some (FSNode.dir entries)) =
         AnnotVal.ProphageInputResult.emptyInput
           ("Prophage sequences file is empty: " ++ p ++
            "/All_prophage_sequences.fasta")) ∧
    (AnnotVal.workflowMarker entries = none →
       List.lookup "All_prophage_sequences.fasta" entries = none →
       globFasta entries = [] →
       AnnotVal.validate_and_detect_prophage_input p (some (FSNode.dir entries)) =
         AnnotVal.ProphageInputResult.noValidInput AnnotVal.noValidInputMsg) ∧
    (AnnotVal.workflowMarker entries = none →
       List.lookup "All_prophage_sequences.fasta" entries = none →
       ∀ name n, globFasta entries = [(name, n)] →
       AnnotVal.validate_and_detect_prophage_input p (some (FSNode.dir entries)) =
         (if statSize n = 0 then
            AnnotVal.ProphageInputResult.emptyInput
              ("Input file is empty: " ++ p ++ "/" ++ name)
          else AnnotVal.ProphageInputResult.ok "single_file" (p ++ "/" ++ name))) ∧
    (AnnotVal.workflowMarker entries = none →
       List.lookup "All_prophage_sequences.fasta" entries = none →
       ∀ name1 n1 name2 n2 rest,
       globFasta entries = (name1, n1) :: (name2, n2) :: rest →
       AnnotVal.validate_and_detect_prophage_input p (some (FSNode.dir entries)) =
         AnnotVal.ProphageInputResult.multipleFasta
           ((name1, n1) :: (name2, n2) :: rest).length
           (AnnotVal.multipleFastaMsg ((name1, n1) :: (name2, n2) :: rest).length) ∧
       containsStr
         (AnnotVal.multipleFastaMsg ((name1, n1) :: (name2, n2) :: rest).length)
         (Nat.repr ((name1, n1) :: (name2, n2) :: rest).length) ∧
       containsStr
         (AnnotVal.multipleFastaMsg ((name1, n1) :: (name2, n2) :: rest).length)
         "merge sequences into a single file") := by
  refine ⟨?_, ?_, ?_, ?_, ?_, ?_, ?_⟩
  · intro m hm hsz
    simp [AnnotVal.validate_and_detect_prophage_input, hm, hsz]
  · intro m hm hsz
    simp [AnnotVal.validate_and_detect_prophage_input, hm, hsz]
  · intro hm m hd hsz
    simp [AnnotVal.validate_and_detect_prophage_input, hm, hd, hsz]
  · intro hm m hd hsz
    simp [AnnotVal.validate_and_detect_prophage_input, hm, hd, hsz]
  · intro hm hd hglob
    simp [AnnotVal.validate_and_detect_prophage_input, hm, hd, hglob]
  · intro hm hd name n hglob
    simp [AnnotVal.validate_and_detect_prophage_input, hm, hd, hglob]
  · intro hm hd name1 n1 name2 n2 rest hglob
    refine ⟨?_, multipleFastaMsg_count _, multipleFastaMsg_merge _⟩
    simp [AnnotVal.validate_and_detect_prophage_input, hm, hd, hglob]

/-- Claim C4 witness: the amended statement applied to the four recognized
shapes, including the end-to-end scenario of a directory holding exactly
prophage1.fasta and prophage2.fasta, whose failure message contains the
count 2 and the merge guidance. -/
theorem c4_witness :
    AnnotVal.validate_and_detect_prophage_input "pd"
      (some (FSNode.dir [("2.Prophage_detection",
        FSNode.dir [("All_prophage_sequences.fasta", FSNode.file 10)])])) =
      AnnotVal.ProphageInputResult.ok "prophage_workflow" "pd" ∧
    AnnotVal.validate_and_detect_prophage_input "dd"
      (some (FSNode.dir [("All_prophage_sequences.fasta", FSNode.file 10)])) =
      AnnotVal.ProphageInputResult.ok "direct_subdir" "dd" ∧
    AnnotVal.validate_and_detect_prophage_input "sd"
      (some (FSNode.dir [("only.fna", FSNode.file 4)])) =
      AnnotVal.ProphageInputResult.ok "single_file" "sd/only.fna" ∧
    (AnnotVal.validate_and_detect_prophage_input "md"
      (some (FSNode.dir [("prophage1.fasta", FSNode.file 5),
                         ("prophage2.fasta", FSNode.file 7)])) =
      AnnotVal.ProphageInputResult.multipleFasta 2 (AnnotVal.multipleFastaMsg 2) ∧
     containsStr (AnnotVal.multipleFastaMsg 2) "2" ∧
     containsStr (AnnotVal.multipleFastaMsg 2) "merge sequences into a single file") := by
  refine ⟨?_, ?_, ?_, ?_⟩
  · exact (c4_amended_annot_dir_classification "pd" _).1 (FSNode.file 10) rfl
      (by decide)
  · exact (c4_amended_annot_dir_classification "dd" _).2.2.1 rfl
      (FSNode.file 10) rfl (by decide)
  · have h := (c4_amended_annot_dir_classification "sd"
      [("only.fna", FSNode.file 4)]).2.2.2.2.2.1 rfl rfl
      "only.fna" (FSNode.file 4) rfl
    rw [h]
    decide
  · exact (c4_amended_annot_dir_classification "md"
      [("prophage1.fasta", FSNode.file 5),
       ("prophage2.fasta", FSNode.file 7)]).2.2.2.2.2.2 rfl rfl
      "prophage1.fasta" (FSNode.file 5) "prophage2.fasta" (FSNode.file 7) [] rfl
